import Mathlib

/-!
Verification of the linkbay_ai orchestration library against its design
specification.  The Python sources under `linkbay_ai/` are shallowly
embedded: pure data flows become Lean functions, mutable object state is
passed explicitly, Python exceptions become an `Except` result with an
explicit exception datatype, and wall-clock inputs (the hour/day bucket
keys produced from the current time) are passed as explicit parameters.
Python integers are modelled by `Int` (arbitrary precision, as in Python);
monetary costs, which the source stores as floats, are modelled by `Rat`
(the claims under study never depend on float rounding).
-/

namespace LinkbayAI

/-! ## Python dictionary model

Python `dict`s (string keys) are modelled as association lists in insertion
order: `d[k] = v` replaces the value in place when the key is present and
appends the pair otherwise; `d.get(k, dflt)` is lookup with default;
`list(d.values())` / `list(d.keys())` follow insertion order. -/

def dictSet {α : Type} : List (String × α) → String → α → List (String × α)
  | [], k, v => [(k, v)]
  | (k₁, v₁) :: d, k, v =>
      if k₁ == k then (k₁, v) :: d else (k₁, v₁) :: dictSet d k v

def dget {α : Type} (d : List (String × α)) (k : String) (dflt : α) : α :=
  (List.lookup k d).getD dflt

theorem lookup_dictSet_self {α : Type} (d : List (String × α)) (k : String) (v : α) :
    List.lookup k (dictSet d k v) = some v := by
  induction d with
  | nil => simp [dictSet, List.lookup]
  | cons p d ih =>
      obtain ⟨k₁, v₁⟩ := p
      by_cases h : k₁ = k
      · subst h
        simp [dictSet, List.lookup]
      · have hb : (k₁ == k) = false := by simp [h]
        have hb' : (k == k₁) = false := by simp [Ne.symm h]
        simp [dictSet, hb, List.lookup, hb', ih]

theorem dget_dictSet_self {α : Type} (d : List (String × α)) (k : String) (v : α) (dflt : α) :
    dget (dictSet d k v) k dflt = v := by
  simp [dget, lookup_dictSet_self]

theorem dget_nil {α : Type} (k : String) (dflt : α) :
    dget ([] : List (String × α)) k dflt = dflt := rfl

theorem keys_dictSet {α : Type} (d : List (String × α)) (k : String) (v : α) :
    (dictSet d k v).map Prod.fst =
      if d.any (fun p => p.1 == k) then d.map Prod.fst else d.map Prod.fst ++ [k] := by
  induction d with
  | nil => simp [dictSet]
  | cons p d ih =>
      obtain ⟨k₁, v₁⟩ := p
      by_cases h : k₁ = k
      · subst h
        simp [dictSet]
      · have hb : (k₁ == k) = false := by simp [h]
        simp only [dictSet, hb, Bool.false_eq_true, if_false, List.map_cons, ih, List.any_cons,
          Bool.false_or]
        by_cases hmem : d.any (fun p => p.1 == k) <;> simp [hmem, h]

/-- Filtering an association list by a key predicate that holds at `k`
preserves the binding of `k` (used for `_cleanup_old_entries`). -/
theorem lookup_filter_of_pred {α : Type} (q : String → Bool) (d : List (String × α))
    (k : String) (h : q k = true) :
    List.lookup k (d.filter (fun p => q p.1)) = List.lookup k d := by
  induction d with
  | nil => rfl
  | cons p d ih =>
      obtain ⟨k₁, v₁⟩ := p
      by_cases hk : k = k₁
      · subst hk
        simp [List.filter_cons, h, List.lookup]
      · have hb : (k == k₁) = false := by simp [hk]
        cases hq : q k₁ <;> simp [List.filter_cons, hq, List.lookup, hb, ih]

/-! ## Exceptions

One constructor per Python exception class raised by the embedded code.
`ProviderTimeoutError`, `ProviderRateLimitError` and
`ProviderConnectionError` are subclasses of `ProviderError` in the source;
`ToolValidationError` and `ToolNotFoundError` are subclasses of
`ToolExecutionError`.  The subclass structure is flattened into distinct
constructors, so a raise site is recorded with the exact class it raises. -/

inductive PyExc where
  | valueError (msg : String)
  | budgetExceededException (msg : String)
  | providerError (msg : String)
  | providerTimeoutError (msg : String)
  | providerRateLimitError (msg : String)
  | providerConnectionError (msg : String)
  | toolExecutionError (msg : String)
  | toolValidationError (msg : String)
  | toolNotFoundError (msg : String)
  | attributeError (missingAttr : String)
  deriving DecidableEq

/-! ## schemas.py -/

/-- Model `GenerationParams` from `linkbay_ai/schemas.py` (pydantic, with
defaults `max_tokens=1000`, `stream=False`, `temperature=0.7`). -/
structure GenerationParams where
  model : String
  max_tokens : Int
  stream : Bool
  temperature : Rat
  deriving DecidableEq

/-- Modelled from the spec: `BudgetConfig` is imported from
`linkbay_ai.schemas` by `cost_controller.py` and the tests, but
`schemas.py` does not define it.  Its fields follow the spec data model
(max tokens per hour, max tokens per day, max monetary cost per hour,
alert threshold) and their use in `cost_controller.py`. -/
structure BudgetConfig where
  max_tokens_per_hour : Int
  max_tokens_per_day : Int
  max_cost_per_hour : Rat
  alert_threshold : Rat
  deriving DecidableEq

/-! ## cost_controller.py

`datetime.now()` only enters the controller through the formatted bucket
keys and the cleanup thresholds, so the embedding passes those four strings
explicitly: `hour_key`/`day_key` stand for `_get_hour_key()`/`_get_day_key()`
and `hour_threshold`/`day_threshold` for the `now - 2 hours` / `now - 2 days`
strings computed in `_cleanup_old_entries`. -/

structure ClockKeys where
  hour_key : String
  day_key : String
  hour_threshold : String
  day_threshold : String

/-- The `self.token_costs` table from `CostController.__init__`, with
`dict.get(model, 0.001)` applied (source floats read as exact decimals). -/
def token_costs_get (model : String) : Rat :=
  if model = "deepseek-chat" then (14 / 100) / 1000000
  else if model = "deepseek-reasoner" then (55 / 100) / 1000000
  else if model = "gpt-3.5-turbo" then (5 / 10) / 1000000
  else if model = "gpt-4" then 30 / 1000000
  else 1 / 1000

structure CostController where
  config : BudgetConfig
  hourly_usage : List (String × Int)
  daily_usage : List (String × Int)
  hourly_cost : List (String × Rat)

/-- Constructor `CostController.__init__`: all three usage windows start empty. -/
def CostController.init (config : BudgetConfig) : CostController :=
  ⟨config, [], [], []⟩

/-- The key-retention test of `_cleanup_old_entries`: keep `k` when it is
strictly greater (string comparison) than the threshold key. -/
def keyAfter (thr : String) : String → Bool :=
  fun s => decide (thr < s)

/-- Method `CostController._cleanup_old_entries`: drop every window entry whose key
is not strictly greater than the 2-hour / 2-day threshold. -/
def CostController.cleanup_old_entries (c : CostController) (keys : ClockKeys) :
    CostController :=
  { c with
    hourly_usage := c.hourly_usage.filter (fun p => keyAfter keys.hour_threshold p.1)
    hourly_cost := c.hourly_cost.filter (fun p => keyAfter keys.hour_threshold p.1)
    daily_usage := c.daily_usage.filter (fun p => keyAfter keys.day_threshold p.1) }

/-- Method `CostController.check_budget`.  Returns the Python result (`True` or the
raised exception) together with the post-call controller state; the two
`ValueError` validations happen before `_cleanup_old_entries`, so a
validation failure leaves the state untouched, while the budget checks run
on the cleaned windows.  The near-limit alert only logs, so it is elided. -/
def CostController.check_budget (c : CostController) (keys : ClockKeys)
    (estimated_tokens : Int) (model : String) :
    Except PyExc Bool × CostController :=
  if estimated_tokens < 0 then
    (.error (.valueError "estimated_tokens deve essere positivo"), c)
  else if estimated_tokens > c.config.max_tokens_per_hour then
    (.error (.valueError ("Richiesta supera il limite orario massimo (" ++
      toString c.config.max_tokens_per_hour ++ ")")), c)
  else if dget (c.cleanup_old_entries keys).hourly_usage keys.hour_key 0 + estimated_tokens >
      c.config.max_tokens_per_hour then
    (.error (.budgetExceededException ("Budget orario superato: " ++
      toString (dget (c.cleanup_old_entries keys).hourly_usage keys.hour_key 0 +
        estimated_tokens) ++ " / " ++
      toString c.config.max_tokens_per_hour)), c.cleanup_old_entries keys)
  else if dget (c.cleanup_old_entries keys).daily_usage keys.day_key 0 + estimated_tokens >
      c.config.max_tokens_per_day then
    (.error (.budgetExceededException ("Budget giornaliero superato: " ++
      toString (dget (c.cleanup_old_entries keys).daily_usage keys.day_key 0 +
        estimated_tokens) ++ " / " ++
      toString c.config.max_tokens_per_day)), c.cleanup_old_entries keys)
  else if dget (c.cleanup_old_entries keys).hourly_cost keys.hour_key 0 +
      (estimated_tokens : Rat) * token_costs_get model > c.config.max_cost_per_hour then
    (.error (.budgetExceededException "Budget costi orario superato"),
      c.cleanup_old_entries keys)
  else
    (.ok true, c.cleanup_old_entries keys)

/-- Method `CostController.record_usage`: unconditionally add the used tokens to
the current hour and day windows and the derived cost to the hour cost
window. -/
def CostController.record_usage (c : CostController) (keys : ClockKeys)
    (tokens_used : Int) (model : String) : CostController :=
  { c with
    hourly_usage := dictSet c.hourly_usage keys.hour_key
      (dget c.hourly_usage keys.hour_key 0 + tokens_used)
    daily_usage := dictSet c.daily_usage keys.day_key
      (dget c.daily_usage keys.day_key 0 + tokens_used)
    hourly_cost := dictSet c.hourly_cost keys.hour_key
      (dget c.hourly_cost keys.hour_key 0 + (tokens_used : Rat) * token_costs_get model) }

/-- The snapshot returned by `CostController.get_current_usage` (the nested
dict flattened into named fields). -/
structure UsageSnapshot where
  hourly_tokens : Int
  hourly_limit : Int
  hourly_percent : Rat
  hourly_cost : Rat
  hourly_cost_limit : Rat
  daily_tokens : Int
  daily_limit : Int
  daily_percent : Rat

def CostController.get_current_usage (c : CostController) (keys : ClockKeys) :
    UsageSnapshot :=
  let hourly_tokens := dget c.hourly_usage keys.hour_key 0
  let daily_tokens := dget c.daily_usage keys.day_key 0
  let hourly_cost := dget c.hourly_cost keys.hour_key 0
  { hourly_tokens := hourly_tokens
    hourly_limit := c.config.max_tokens_per_hour
    hourly_percent := ((hourly_tokens : Rat) / (c.config.max_tokens_per_hour : Rat)) * 100
    hourly_cost := hourly_cost
    hourly_cost_limit := c.config.max_cost_per_hour
    daily_tokens := daily_tokens
    daily_limit := c.config.max_tokens_per_day
    daily_percent := ((daily_tokens : Rat) / (c.config.max_tokens_per_day : Rat)) * 100 }

/-- A sequence of `record_usage` calls, all at the same clock instant
(hence in the same hour/day buckets). -/
def record_all (keys : ClockKeys) (c : CostController) :
    List (Int × String) → CostController
  | [] => c
  | (t, m) :: rest => record_all keys (c.record_usage keys t m) rest

/-! ## Cost-controller lemmas and claims C4, C5, C6 -/

theorem dget_cleanup_hourly (c : CostController) (keys : ClockKeys)
    (h : keys.hour_threshold < keys.hour_key) :
    dget (c.cleanup_old_entries keys).hourly_usage keys.hour_key 0 =
      dget c.hourly_usage keys.hour_key 0 := by
  unfold CostController.cleanup_old_entries dget
  rw [lookup_filter_of_pred (keyAfter keys.hour_threshold) c.hourly_usage keys.hour_key
    (decide_eq_true h)]

theorem dget_cleanup_daily (c : CostController) (keys : ClockKeys)
    (h : keys.day_threshold < keys.day_key) :
    dget (c.cleanup_old_entries keys).daily_usage keys.day_key 0 =
      dget c.daily_usage keys.day_key 0 := by
  unfold CostController.cleanup_old_entries dget
  rw [lookup_filter_of_pred (keyAfter keys.day_threshold) c.daily_usage keys.day_key
    (decide_eq_true h)]

theorem dget_cleanup_cost (c : CostController) (keys : ClockKeys)
    (h : keys.hour_threshold < keys.hour_key) :
    dget (c.cleanup_old_entries keys).hourly_cost keys.hour_key 0 =
      dget c.hourly_cost keys.hour_key 0 := by
  unfold CostController.cleanup_old_entries dget
  rw [lookup_filter_of_pred (keyAfter keys.hour_threshold) c.hourly_cost keys.hour_key
    (decide_eq_true h)]

/-- C4: with `0 ≤ estimated_tokens ≤ max_tokens_per_hour` and the daily and
cost ceilings not binding, `check_budget` returns `True` exactly when the
current-hour recorded tokens plus the estimate stay at or below the hourly
ceiling, and raises `BudgetExceededException` exactly when the sum strictly
exceeds it (boundary accepted, one over rejected). -/
theorem c4_check_budget_hourly_boundary (c : CostController) (keys : ClockKeys)
    (est : Int) (model : String)
    (h0 : 0 ≤ est) (h1 : est ≤ c.config.max_tokens_per_hour)
    (hhk : keys.hour_threshold < keys.hour_key)
    (hdk : keys.day_threshold < keys.day_key)
    (hd : dget c.daily_usage keys.day_key 0 + est ≤ c.config.max_tokens_per_day)
    (hc : dget c.hourly_cost keys.hour_key 0 + (est : Rat) * token_costs_get model ≤
      c.config.max_cost_per_hour) :
    ((c.check_budget keys est model).1 = .ok true ↔
       dget c.hourly_usage keys.hour_key 0 + est ≤ c.config.max_tokens_per_hour) ∧
    ((∃ m, (c.check_budget keys est model).1 = .error (.budgetExceededException m)) ↔
       c.config.max_tokens_per_hour < dget c.hourly_usage keys.hour_key 0 + est) := by
  have e1 := dget_cleanup_hourly c keys hhk
  have e2 := dget_cleanup_daily c keys hdk
  have e3 := dget_cleanup_cost c keys hhk
  unfold CostController.check_budget
  rw [e1, e2, e3, if_neg (by omega : ¬ est < 0),
    if_neg (by omega : ¬ est > c.config.max_tokens_per_hour)]
  by_cases hcase : dget c.hourly_usage keys.hour_key 0 + est ≤ c.config.max_tokens_per_hour
  · rw [if_neg (by omega), if_neg (by omega), if_neg (not_lt.mpr hc)]
    constructor
    · exact ⟨fun _ => hcase, fun _ => rfl⟩
    · constructor
      · rintro ⟨m, hm⟩
        exact absurd hm (by simp)
      · intro hlt
        omega
  · rw [if_pos (by omega)]
    constructor
    · constructor
      · intro heq
        exact absurd heq (by simp)
      · intro hle
        omega
    · exact ⟨fun _ => by omega, fun _ => ⟨_, rfl⟩⟩

/-- Concrete controller for the C4 witness: `max_tokens_per_hour = 1000`,
with 500 and then 400 tokens recorded in the current hour bucket. -/
def budgetCfgW : BudgetConfig := ⟨1000, 1000000, 100, 8/10⟩

def keysW : ClockKeys := ⟨"2025-06-01-10", "2025-06-01", "2025-06-01-08", "2025-05-30"⟩

def controllerW : CostController :=
  ((CostController.init budgetCfgW).record_usage keysW 500 "deepseek-chat").record_usage
    keysW 400 "deepseek-chat"

/-- C4 witness: at 900 recorded tokens out of 1000, `check_budget 100` is
accepted (boundary) and `check_budget 200` raises budget-exceeded. -/
theorem c4_witness :
    ((controllerW.check_budget keysW 100 "deepseek-chat").1 = .ok true) ∧
    (∃ m, (controllerW.check_budget keysW 200 "deepseek-chat").1 =
      .error (.budgetExceededException m)) := by
  have hhk : keysW.hour_threshold < keysW.hour_key := by
    rw [String.lt_iff_toList_lt]; decide
  have hdk : keysW.day_threshold < keysW.day_key := by
    rw [String.lt_iff_toList_lt]; decide
  have hc : ∀ est : Int, 0 ≤ est → est ≤ 1000 →
      dget controllerW.hourly_cost keysW.hour_key 0 +
        (est : Rat) * token_costs_get "deepseek-chat" ≤ controllerW.config.max_cost_per_hour := by
    intro est he0 he1
    have hcast : (est : Rat) ≤ 1000 := by exact_mod_cast he1
    have hcast0 : (0 : Rat) ≤ (est : Rat) := by exact_mod_cast he0
    simp only [controllerW, budgetCfgW, keysW, CostController.init, CostController.record_usage,
      dget_dictSet_self, dget_nil, token_costs_get, if_true]
    nlinarith
  constructor
  · exact (c4_check_budget_hourly_boundary controllerW keysW 100 "deepseek-chat"
      (by decide) (by decide) hhk hdk (by decide)
      (hc 100 (by decide) (by decide))).1.mpr (by decide)
  · exact (c4_check_budget_hourly_boundary controllerW keysW 200 "deepseek-chat"
      (by decide) (by decide) hhk hdk (by decide)
      (hc 200 (by decide) (by decide))).2.mpr (by decide)

/-- C5: for every negative estimate, and every estimate strictly above the
hourly ceiling, `check_budget` raises `ValueError` regardless of prior
recorded usage, and the failing call leaves the controller (all three usage
windows) unchanged. -/
theorem c5_check_budget_invalid_input (c : CostController) (keys : ClockKeys)
    (est : Int) (model : String)
    (h : est < 0 ∨ c.config.max_tokens_per_hour < est) :
    (∃ m, (c.check_budget keys est model).1 = .error (.valueError m)) ∧
    (c.check_budget keys est model).2 = c := by
  unfold CostController.check_budget
  by_cases h0 : est < 0
  · rw [if_pos h0]
    exact ⟨⟨_, rfl⟩, rfl⟩
  · have h1 : est > c.config.max_tokens_per_hour := by
      rcases h with h | h
      · exact absurd h h0
      · exact h
    rw [if_neg h0, if_pos h1]
    exact ⟨⟨_, rfl⟩, rfl⟩

/-- C5 witness: `check_budget (-1)` on a fresh controller fails with
`ValueError` and leaves the controller unchanged. -/
theorem c5_witness :
    (∃ m, ((CostController.init budgetCfgW).check_budget keysW (-1) "deepseek-chat").1 =
      .error (.valueError m)) ∧
    ((CostController.init budgetCfgW).check_budget keysW (-1) "deepseek-chat").2 =
      CostController.init budgetCfgW :=
  c5_check_budget_invalid_input (CostController.init budgetCfgW) keysW (-1)
    "deepseek-chat" (Or.inl (by decide))

theorem record_usage_hourly_step (c : CostController) (keys : ClockKeys)
    (t : Int) (m : String) :
    dget (c.record_usage keys t m).hourly_usage keys.hour_key 0 =
      dget c.hourly_usage keys.hour_key 0 + t := by
  simp [CostController.record_usage, dget_dictSet_self]

theorem record_usage_daily_step (c : CostController) (keys : ClockKeys)
    (t : Int) (m : String) :
    dget (c.record_usage keys t m).daily_usage keys.day_key 0 =
      dget c.daily_usage keys.day_key 0 + t := by
  simp [CostController.record_usage, dget_dictSet_self]

theorem record_all_hourly_sum (keys : ClockKeys) (ts : List (Int × String))
    (c : CostController) :
    dget (record_all keys c ts).hourly_usage keys.hour_key 0 =
      dget c.hourly_usage keys.hour_key 0 + (ts.map Prod.fst).sum := by
  induction ts generalizing c with
  | nil => simp [record_all]
  | cons p rest ih =>
      obtain ⟨t, m⟩ := p
      simp only [record_all, ih, record_usage_hourly_step, List.map_cons, List.sum_cons]
      omega

/-- C6: after any sequence of `record_usage` calls in one hour bucket
(starting from a fresh controller), `get_current_usage` reports hourly
tokens equal to the exact sum of the recorded token counts; moreover each
single `record_usage` unconditionally adds its token count to the current
hour window and the current day window. -/
theorem c6_record_usage_exact_sum (config : BudgetConfig) (keys : ClockKeys)
    (ts : List (Int × String)) :
    ((record_all keys (CostController.init config) ts).get_current_usage keys).hourly_tokens =
      (ts.map Prod.fst).sum ∧
    ∀ (c : CostController) (t : Int) (m : String),
      dget (c.record_usage keys t m).hourly_usage keys.hour_key 0 =
        dget c.hourly_usage keys.hour_key 0 + t ∧
      dget (c.record_usage keys t m).daily_usage keys.day_key 0 =
        dget c.daily_usage keys.day_key 0 + t := by
  refine ⟨?_, fun c t m => ⟨record_usage_hourly_step c keys t m,
    record_usage_daily_step c keys t m⟩⟩
  have h := record_all_hourly_sum keys ts (CostController.init config)
  simp only [CostController.get_current_usage, h]
  simp [CostController.init, dget]

/-! ## providers.py — `BaseProvider._execute_with_retry`

The wrapped function (`_call` in the concrete providers) is abstracted as a
map from the invocation index to the outcome of that invocation; the
`asyncio.sleep` calls are recorded as a list of durations in seconds. -/

structure ProviderState where
  name : String
  request_count : Option Int
  error_count : Option Int
  deriving DecidableEq

/-- Constructor `BaseProvider.__init__` stores the config and the provider name only;
`request_count` and `error_count` are never created (`none` models a Python
instance attribute that does not exist, so reading it raises
`AttributeError`). -/
def ProviderState.init (name : String) : ProviderState :=
  ⟨name, none, none⟩

/-- Outcome of one invocation of the function wrapped by
`_execute_with_retry`, one constructor per `except` clause of the source
(`status_code` is `none` when the `APIError` lacks that attribute;
`raised` covers the final bare `except Exception` clause). -/
inductive FuncOutcome (α : Type) where
  | ok (v : α)
  | rateLimitError (msg : String)
  | apiTimeoutError (msg : String)
  | apiConnectionError (msg : String)
  | apiError (status_code : Option Int) (msg : String)
  | raised (msg : String)
  deriving DecidableEq

/-- The test guarding the no-retry branch for client errors:
`hasattr` on `status_code` combined with `400 <= e.status_code < 500`. -/
def is4xx : Option Int → Bool
  | some c => decide (400 ≤ c ∧ c < 500)
  | none => false

deriving instance DecidableEq for Except

/-- Result of an `_execute_with_retry` call: the returned value or the
raised exception, the provider state afterwards, the backoff sleeps
performed in order, and how many times the wrapped function was invoked. -/
structure RetryTrace (α : Type) where
  result : Except PyExc α
  state : ProviderState
  sleeps : List Rat
  calls : Nat
  deriving DecidableEq

/-- The code following the `for` loop of `_execute_with_retry` (reached by
loop exhaustion or `break`): `self.error_count += 1` — an `AttributeError`
if the attribute does not exist — then
`raise last_exception or ProviderError(...)`. -/
def retryExhaust {α : Type} (st : ProviderState) (calls : Nat) (sleeps : List Rat)
    (last_exception : Option PyExc) : RetryTrace α :=
  match st.error_count with
  | none => ⟨.error (.attributeError "error_count"), st, sleeps, calls⟩
  | some ec =>
      ⟨.error (last_exception.getD (.providerError ("Provider " ++ st.name ++
        " non disponibile"))), { st with error_count := some (ec + 1) }, sleeps, calls⟩

/-- The `for attempt in range(max_retries)` loop of `_execute_with_retry`.
`fuel` is the number of remaining attempts, `attempt` the current loop
index, `calls` the number of wrapped-function invocations so far (so
`func calls` is the outcome of the next invocation).
`self.request_count += 1` raises an `AttributeError` when the attribute
does not exist; being inside the `try`, that exception falls into the bare
`except Exception` clause, which stores a generic `ProviderError` as
`last_exception` and breaks out of the loop without ever invoking the
wrapped function. -/
def retryLoop {α : Type} (st : ProviderState) (func : Nat → FuncOutcome α)
    (backoff_factor : Rat) (attempt : Nat) (fuel : Nat) (calls : Nat)
    (sleeps : List Rat) (last_exception : Option PyExc) : RetryTrace α :=
  match fuel with
  | 0 => retryExhaust st calls sleeps last_exception
  | fuel' + 1 =>
    match st.request_count with
    | none =>
        retryExhaust st calls sleeps
          (some (.providerError "Unexpected error: missing attribute request_count"))
    | some rc =>
      match func calls with
      | .ok v => ⟨.ok v, { st with request_count := some (rc + 1) }, sleeps, calls + 1⟩
      | .rateLimitError m =>
          retryLoop { st with request_count := some (rc + 1) } func backoff_factor
            (attempt + 1) fuel' (calls + 1)
            (sleeps ++ [(2 ^ attempt : Rat) * backoff_factor])
            (some (.providerRateLimitError ("Rate limit error: " ++ m)))
      | .apiTimeoutError m =>
          retryLoop { st with request_count := some (rc + 1) } func backoff_factor
            (attempt + 1) fuel' (calls + 1) (sleeps ++ [(2 ^ attempt : Rat)])
            (some (.providerTimeoutError ("Timeout: " ++ m)))
      | .apiConnectionError m =>
          retryLoop { st with request_count := some (rc + 1) } func backoff_factor
            (attempt + 1) fuel' (calls + 1) (sleeps ++ [(2 ^ attempt : Rat)])
            (some (.providerConnectionError ("Connection error: " ++ m)))
      | .apiError status_code m =>
          if is4xx status_code then
            ⟨.error (.providerError ("Client error: " ++ m)),
              { st with request_count := some (rc + 1) }, sleeps, calls + 1⟩
          else
            retryLoop { st with request_count := some (rc + 1) } func backoff_factor
              (attempt + 1) fuel' (calls + 1) (sleeps ++ [(2 ^ attempt : Rat)])
              (some (.providerError ("API error: " ++ m)))
      | .raised m =>
          retryExhaust { st with request_count := some (rc + 1) } (calls + 1) sleeps
            (some (.providerError ("Unexpected error: " ++ m)))

/-- Method `BaseProvider._execute_with_retry`; the source defaults are
`max_retries = 3`, `backoff_factor = 1.5`. -/
def execute_with_retry {α : Type} (st : ProviderState) (func : Nat → FuncOutcome α)
    (max_retries : Nat) (backoff_factor : Rat) : RetryTrace α :=
  retryLoop st func backoff_factor 0 max_retries 0 [] none

/-! ## Retry-wrapper claims C3, C7, C8 -/

/-- A wrapped call whose every invocation fails with a retryable
rate-limit error. -/
def always429 : Nat → FuncOutcome String := fun _ => .rateLimitError "429"

/-- C3 (code bug): on a provider fresh from `BaseProvider.__init__` the
counters do not exist, so an exhausted call does not behave as claimed:
the very first `self.request_count += 1` raises `AttributeError` (caught
by the bare `except`, which breaks), the wrapped function is invoked zero
times instead of once per attempt, and the call surfaces
`AttributeError` for `error_count` instead of a provider-level error
carrying the last retryable cause. -/
theorem c3_counters_never_initialized :
    (execute_with_retry (ProviderState.init "deepseek") always429 3 (3/2)).result =
      .error (.attributeError "error_count") ∧
    (execute_with_retry (ProviderState.init "deepseek") always429 3 (3/2)).calls = 0 ∧
    (ProviderState.init "deepseek").request_count = none ∧
    (ProviderState.init "deepseek").error_count = none :=
  ⟨rfl, rfl, rfl, rfl⟩

/-- Had `__init__` created the two counters, the exhausted call would
behave exactly as the spec claims: the wrapped function runs once per
attempt (request counter +3), the error counter is incremented exactly
once, and the surfaced exception is the provider-level wrapper of the last
observed cause. -/
theorem retry_exhaustion_when_counters_present :
    execute_with_retry (⟨"deepseek", some 5, some 7⟩ : ProviderState) always429 3 (3/2) =
      ⟨.error (.providerRateLimitError ("Rate limit error: " ++ "429")),
       ⟨"deepseek", some 8, some 8⟩, [3/2, 3, 6], 3⟩ := by
  simp only [execute_with_retry, retryLoop, retryExhaust, always429, Option.getD]
  norm_num

/-- C7: within one retry-wrapped call (counters present), a 4xx-class
`APIError` is surfaced immediately as a `ProviderError` with no backoff
sleep and no further attempt, and any other unexpected exception aborts
the retry loop immediately and is surfaced as a generic `ProviderError`;
in both cases the wrapped function is invoked exactly once more, never
again after the failing attempt. -/
theorem c7_client_error_and_unexpected_abort {α : Type}
    (st : ProviderState) (func : Nat → FuncOutcome α) (backoff_factor : Rat)
    (attempt fuel calls : Nat) (sleeps : List Rat) (last_exception : Option PyExc)
    (r e : Int) (hrc : st.request_count = some r) (hec : st.error_count = some e) :
    (∀ (code : Int) (m : String),
       func calls = .apiError (some code) m → 400 ≤ code → code < 500 →
       retryLoop st func backoff_factor attempt (fuel + 1) calls sleeps last_exception =
         ⟨.error (.providerError ("Client error: " ++ m)),
          { st with request_count := some (r + 1) }, sleeps, calls + 1⟩) ∧
    (∀ m : String,
       func calls = .raised m →
       retryLoop st func backoff_factor attempt (fuel + 1) calls sleeps last_exception =
         ⟨.error (.providerError ("Unexpected error: " ++ m)),
          { st with request_count := some (r + 1), error_count := some (e + 1) },
          sleeps, calls + 1⟩) := by
  obtain ⟨nm, rc, ec⟩ := st
  dsimp only at hrc hec
  subst hrc
  subst hec
  constructor
  · intro code m hfunc h4 h5
    have h4xx : is4xx (some code) = true := by
      simp [is4xx]
      omega
    simp [retryLoop, hfunc, h4xx, retryExhaust]
  · intro m hfunc
    simp [retryLoop, hfunc, retryExhaust]

/-- Wrapped call used for the C7 witness: always a 401 client error. -/
def clientErrFunc : Nat → FuncOutcome String := fun _ => .apiError (some 401) "auth"

/-- C7 witness: a concrete 4xx failure at the first attempt is surfaced
immediately, with one invocation, no sleeps and no counter but the request
counter changed. -/
theorem c7_witness :
    retryLoop (⟨"deepseek", some 0, some 0⟩ : ProviderState) clientErrFunc (3/2)
      0 3 0 [] none =
      ⟨.error (.providerError ("Client error: " ++ "auth")),
       ⟨"deepseek", some (0 + 1), some 0⟩, [], 0 + 1⟩ :=
  (c7_client_error_and_unexpected_abort (⟨"deepseek", some 0, some 0⟩ : ProviderState)
    clientErrFunc (3/2) 0 2 0 [] none 0 0 rfl rfl).1 401 "auth" rfl (by decide) (by decide)

/-- Wrapped call for the C8 scenario: rate-limited twice, then a success
on the third invocation. -/
def rlScenario : Nat → FuncOutcome String := fun k =>
  if k = 0 then .rateLimitError "first"
  else if k = 1 then .rateLimitError "second"
  else .ok "done"

/-- C8: a rate-limit failure on attempt `attempt` sleeps
`2 ^ attempt * backoff_factor` seconds before the next attempt, while
timeout, connection and server-side API errors sleep `2 ^ attempt`
seconds; consequently the concrete call that is rate-limited twice and
succeeds on the third attempt (defaults `max_retries = 3`,
`backoff_factor = 1.5`) returns the successful result having slept exactly
twice, with strictly increasing durations `[1.5, 3]`. -/
theorem c8_backoff_schedule {α : Type}
    (st : ProviderState) (func : Nat → FuncOutcome α) (backoff_factor : Rat)
    (attempt fuel calls : Nat) (sleeps : List Rat) (last_exception : Option PyExc)
    (r : Int) (hrc : st.request_count = some r) :
    (∀ m, func calls = .rateLimitError m →
       retryLoop st func backoff_factor attempt (fuel + 1) calls sleeps last_exception =
         retryLoop { st with request_count := some (r + 1) } func backoff_factor
           (attempt + 1) fuel (calls + 1)
           (sleeps ++ [(2 ^ attempt : Rat) * backoff_factor])
           (some (.providerRateLimitError ("Rate limit error: " ++ m)))) ∧
    (∀ m, func calls = .apiTimeoutError m →
       retryLoop st func backoff_factor attempt (fuel + 1) calls sleeps last_exception =
         retryLoop { st with request_count := some (r + 1) } func backoff_factor
           (attempt + 1) fuel (calls + 1) (sleeps ++ [(2 ^ attempt : Rat)])
           (some (.providerTimeoutError ("Timeout: " ++ m)))) ∧
    (∀ m, func calls = .apiConnectionError m →
       retryLoop st func backoff_factor attempt (fuel + 1) calls sleeps last_exception =
         retryLoop { st with request_count := some (r + 1) } func backoff_factor
           (attempt + 1) fuel (calls + 1) (sleeps ++ [(2 ^ attempt : Rat)])
           (some (.providerConnectionError ("Connection error: " ++ m)))) ∧
    (∀ status_code m, func calls = .apiError status_code m → is4xx status_code = false →
       retryLoop st func backoff_factor attempt (fuel + 1) calls sleeps last_exception =
         retryLoop { st with request_count := some (r + 1) } func backoff_factor
           (attempt + 1) fuel (calls + 1) (sleeps ++ [(2 ^ attempt : Rat)])
           (some (.providerError ("API error: " ++ m)))) ∧
    (execute_with_retry (⟨"deepseek", some 0, some 0⟩ : ProviderState) rlScenario 3 (3/2) =
       ⟨.ok "done", ⟨"deepseek", some 3, some 0⟩, [3/2, 3], 3⟩ ∧
     List.Chain' (· < ·)
       (execute_with_retry (⟨"deepseek", some 0, some 0⟩ : ProviderState)
         rlScenario 3 (3/2)).sleeps) := by
  obtain ⟨nm, rc, ec⟩ := st
  dsimp only at hrc
  subst hrc
  have scenario :
      execute_with_retry (⟨"deepseek", some 0, some 0⟩ : ProviderState) rlScenario 3 (3/2) =
        ⟨.ok "done", ⟨"deepseek", some 3, some 0⟩, [3/2, 3], 3⟩ := by
    simp only [execute_with_retry, retryLoop, rlScenario]
    norm_num
  refine ⟨?_, ?_, ?_, ?_, scenario, ?_⟩
  · intro m hfunc
    simp [retryLoop, hfunc]
  · intro m hfunc
    simp [retryLoop, hfunc]
  · intro m hfunc
    simp [retryLoop, hfunc]
  · intro status_code m hfunc h4
    simp [retryLoop, hfunc, h4]
  · rw [scenario]
    simp [List.chain'_cons]

/-- C8 witness: the general rate-limit equation applied at attempt 0 of a
concrete call, discharging the counter hypothesis. -/
theorem c8_witness :
    retryLoop (⟨"deepseek", some 0, some 0⟩ : ProviderState) rlScenario (3/2)
      0 3 0 [] none =
      retryLoop (⟨"deepseek", some (0 + 1), some 0⟩ : ProviderState) rlScenario (3/2)
        1 2 1 ([] ++ [(2 ^ 0 : Rat) * (3/2)])
        (some (.providerRateLimitError ("Rate limit error: " ++ "first"))) :=
  (c8_backoff_schedule (⟨"deepseek", some 0, some 0⟩ : ProviderState) rlScenario (3/2)
    0 2 0 [] none 0 rfl).1 "first" rfl

/-! ## core.py — `AIOrchestrator`

`core.py` calls `provider.chat(prompt, params)` and returns the response
string; a provider is therefore modelled by that call alone (returning the
text or raising). -/

structure Provider where
  chat : String → GenerationParams → Except PyExc String

/-- One entry of `self.request_history`. -/
structure RequestRecord where
  prompt : String
  model : String
  response : String

structure AIOrchestrator where
  providers : List (String × Provider)
  request_history : List RequestRecord

/-- Constructor `AIOrchestrator.__init__`: empty provider dict, empty history. -/
def AIOrchestrator.init : AIOrchestrator := ⟨[], []⟩

/-- Method `AIOrchestrator.register_provider`: `self.providers[name] = provider`;
the signature takes no priority. -/
def AIOrchestrator.register_provider (o : AIOrchestrator) (name : String)
    (provider : Provider) : AIOrchestrator :=
  { o with providers := dictSet o.providers name provider }

/-- Method `AIOrchestrator.chat`: raise `ValueError` when no provider is
configured; otherwise call `list(self.providers.values())[0]` — only the
first registered provider — with `GenerationParams(model=model)` (pydantic
defaults `max_tokens=1000`, `stream=False`, `temperature=0.7`).  On
success, append to the request history and return the response; a provider
exception propagates unhandled.  There is no loop over the remaining
providers and no aggregation of failures. -/
def AIOrchestrator.chat (o : AIOrchestrator) (prompt : String) (model : String) :
    Except PyExc (String × AIOrchestrator) :=
  match o.providers with
  | [] => .error (.valueError "No AI providers configured")
  | (_, provider) :: _ =>
      match provider.chat prompt ⟨model, 1000, false, 7/10⟩ with
      | .error e => .error e
      | .ok response =>
          .ok (response,
            { o with request_history := o.request_history ++ [⟨prompt, model, response⟩] })

/-! ## Orchestrator claims C1, C2 -/

/-- Decidable substring test over the underlying character lists, used to
state that an error message does not reference a provider name. -/
def strMentions (needle hay : String) : Bool :=
  hay.data.tails.any (fun t => needle.data.isPrefixOf t)

/-- P1, first registered: every chat attempt fails with a retryable
rate-limit error. -/
def providerP1 : Provider := ⟨fun _ _ => .error (.providerRateLimitError "rate limited")⟩

/-- P2, second registered: chat succeeds. -/
def providerP2 : Provider := ⟨fun _ _ => .ok "P2 response"⟩

def orchC1 : AIOrchestrator :=
  (AIOrchestrator.init.register_provider "P1" providerP1).register_provider "P2" providerP2

/-- C1 (code bug): with P1 registered first and always failing retryably
and P2 registered second and succeeding, `AIOrchestrator.chat` does not
walk the provider list: it consults only the first registered provider and
propagates its error, so the P2 response is never returned. -/
theorem c1_no_priority_failover :
    orchC1.chat "hi" "deepseek-chat" = .error (.providerRateLimitError "rate limited") ∧
    ∀ o : AIOrchestrator, orchC1.chat "hi" "deepseek-chat" ≠ .ok ("P2 response", o) :=
  ⟨rfl, fun _ h => Except.noConfusion h⟩

/-- First registered provider of the C2 orchestrator: always fails. -/
def providerAlpha : Provider := ⟨fun _ _ => .error (.providerError "alpha down")⟩

/-- Second registered provider of the C2 orchestrator: always fails. -/
def providerBeta : Provider := ⟨fun _ _ => .error (.providerError "beta down")⟩

def orchC2 : AIOrchestrator :=
  (AIOrchestrator.init.register_provider "alpha" providerAlpha).register_provider
    "beta" providerBeta

/-- C2 (code bug): with every registered provider failing,
`AIOrchestrator.chat` surfaces the own error of the first provider, not an
aggregated all-providers-failed condition: the surfaced message does not
mention the second provider at all (and `core.py` defines no
`AllProvidersFailedException`, although the package `__init__.py` imports
one from it). -/
theorem c2_no_all_providers_failed_aggregation :
    orchC2.chat "hi" "deepseek-chat" = .error (.providerError "alpha down") ∧
    strMentions "beta" "alpha down" = false :=
  ⟨rfl, by decide⟩

/-! ## tools.py — `ToolsManager` -/

/-- Keyword arguments of a tool call (`call.arguments`), abstracted as
name/value pairs with string values. -/
abbrev ToolArgs := List (String × String)

/-- A registered handler either returns a value or raises an exception
whose `str(e)` is `msg`. -/
inductive ToolOutcome where
  | ok (v : String)
  | exc (msg : String)
  deriving DecidableEq

abbrev ToolHandler := ToolArgs → ToolOutcome

structure ToolCall where
  name : String
  arguments : ToolArgs

/-- The inner `function` object of a tool definition; the JSON-schema
parameter contract is carried as an abstract payload. -/
structure ToolFunctionDef where
  name : String
  description : String
  parameters : String
  deriving DecidableEq

/-- The `{"type": "function", "function": ...}` entry appended by
`register_tool`. -/
structure ToolDef where
  type : String
  function : ToolFunctionDef
  deriving DecidableEq

structure ToolsManager where
  tools : List (String × ToolHandler)
  tool_definitions : List ToolDef

/-- Method `ToolsManager.register_tool`: store the handler under `name`
(overwriting any previous handler for that name) and unconditionally
append a fresh definition entry. -/
def ToolsManager.register_tool (m : ToolsManager) (name : String)
    (function : ToolHandler) (description : String) (parameters : String) :
    ToolsManager :=
  { tools := dictSet m.tools name function
    tool_definitions :=
      m.tool_definitions ++ [⟨"function", ⟨name, description, parameters⟩⟩] }

def ToolsManager.get_tool_definitions (m : ToolsManager) : List ToolDef :=
  m.tool_definitions

/-- Method `ToolsManager.execute_tool`: raise `ToolExecutionError` — the base
class, with the not-found message — when `call.name` is unregistered;
otherwise invoke the handler and wrap any exception it raises into a
`ToolExecutionError` carrying the tool name and the cause message. -/
def ToolsManager.execute_tool (m : ToolsManager) (call : ToolCall) :
    Except PyExc String :=
  match List.lookup call.name m.tools with
  | none => .error (.toolExecutionError ("Tool non trovato: " ++ call.name))
  | some f =>
      match f call.arguments with
      | .ok v => .ok v
      | .exc e =>
          .error (.toolExecutionError ("Errore esecuzione " ++ call.name ++ ": " ++ e))

/-- Method `ToolsManager.list_tools`: `list(self.tools.keys())`. -/
def ToolsManager.list_tools (m : ToolsManager) : List String :=
  m.tools.map Prod.fst

/-! ## Tool claims C9, C10 -/

/-- Classifier used to state C9: is the raised exception the distinguished
`ToolNotFoundError` subclass? -/
def raisesToolNotFound : Except PyExc String → Bool
  | .error (.toolNotFoundError _) => true
  | _ => false

/-- C9 counterexample: at the concrete unregistered name
`missing_tool`, `execute_tool` raises the base `ToolExecutionError` with a
not-found message — not the distinguished `ToolNotFoundError` subclass the
claim describes (that class is defined and exported but never raised). -/
theorem c9_counterexample :
    raisesToolNotFound
      (ToolsManager.execute_tool ⟨[], []⟩ ⟨"missing_tool", []⟩) = false ∧
    ToolsManager.execute_tool ⟨[], []⟩ ⟨"missing_tool", []⟩ =
      .error (.toolExecutionError ("Tool non trovato: " ++ "missing_tool")) :=
  ⟨rfl, rfl⟩

/-- C9 (amended): `execute_tool` with an unregistered name always fails by
raising the base `ToolExecutionError` carrying the not-found message that
names the tool (the distinguished `ToolNotFoundError` subclass exists but
is never raised); with a registered handler that raises, it always fails
with a `ToolExecutionError` carrying the tool name and the original cause
message — never returning normally and never swallowing the handler
exception. -/
theorem c9_execute_tool_failure_modes (m : ToolsManager) (call : ToolCall) :
    (List.lookup call.name m.tools = none →
       m.execute_tool call =
         .error (.toolExecutionError ("Tool non trovato: " ++ call.name))) ∧
    (∀ (f : ToolHandler) (e : String),
       List.lookup call.name m.tools = some f → f call.arguments = .exc e →
       m.execute_tool call =
         .error (.toolExecutionError ("Errore esecuzione " ++ call.name ++ ": " ++ e))) := by
  constructor
  · intro h
    simp [ToolsManager.execute_tool, h]
  · intro f e hf he
    simp [ToolsManager.execute_tool, hf, he]

/-- Handler for the C9 witness: always raises with message `kaput`. -/
def boomHandler : ToolHandler := fun _ => .exc "kaput"

def mgrC9 : ToolsManager :=
  ToolsManager.register_tool ⟨[], []⟩ "boom" boomHandler "detonate" "schema"

/-- C9 witness: a registered handler that raises is wrapped into a
`ToolExecutionError` carrying the tool name and the cause. -/
theorem c9_witness :
    mgrC9.execute_tool ⟨"boom", []⟩ =
      .error (.toolExecutionError ("Errore esecuzione " ++ "boom" ++ ": " ++ "kaput")) :=
  (c9_execute_tool_failure_modes mgrC9 ⟨"boom", []⟩).2 boomHandler "kaput" rfl rfl

theorem any_key_dictSet {α : Type} (d : List (String × α)) (k : String) (v : α) :
    (dictSet d k v).any (fun p => p.1 == k) = true := by
  induction d with
  | nil => simp [dictSet]
  | cons p d ih =>
      obtain ⟨k₁, v₁⟩ := p
      by_cases h : k₁ = k
      · subst h
        simp [dictSet]
      · have hb : (k₁ == k) = false := by simp [h]
        simp [dictSet, hb, ih]

theorem count_keys_dictSet {α : Type} (d : List (String × α)) (k : String) (v : α)
    (hnd : (d.map Prod.fst).Nodup) :
    ((dictSet d k v).map Prod.fst).count k = 1 := by
  rw [keys_dictSet]
  by_cases hmem : d.any (fun p => p.1 == k) = true
  · rw [if_pos hmem]
    have hk : k ∈ d.map Prod.fst := by
      rw [List.any_eq_true] at hmem
      obtain ⟨x, hx, hxk⟩ := hmem
      rw [beq_iff_eq] at hxk
      exact hxk ▸ List.mem_map_of_mem Prod.fst hx
    exact List.count_eq_one_of_mem hnd hk
  · rw [if_neg hmem]
    have hk : k ∉ d.map Prod.fst := by
      intro hk
      apply hmem
      rw [List.any_eq_true]
      obtain ⟨x, hx, hfx⟩ := List.mem_map.mp hk
      exact ⟨x, hx, by simp [hfx]⟩
    rw [List.count_append]
    simp [List.count_eq_zero_of_not_mem hk]

/-- C10: registering the same tool name twice (handlers `h1` then `h2`)
leaves exactly one handler registered under that name — the second, which
subsequent `execute_tool` calls invoke — and `list_tools` returns the name
exactly once (the tools dict keeps unique keys), while
`get_tool_definitions` gains two definition entries bearing that name, one
appended per registration call. -/
theorem c10_double_registration (m : ToolsManager) (n : String)
    (h1 h2 : ToolHandler) (d1 d2 q1 q2 : String)
    (hnd : (m.tools.map Prod.fst).Nodup) :
    (List.lookup n ((m.register_tool n h1 d1 q1).register_tool n h2 d2 q2).tools =
      some h2) ∧
    (∀ args : ToolArgs,
       ((m.register_tool n h1 d1 q1).register_tool n h2 d2 q2).execute_tool ⟨n, args⟩ =
         match h2 args with
         | .ok v => .ok v
         | .exc e =>
             .error (.toolExecutionError ("Errore esecuzione " ++ n ++ ": " ++ e))) ∧
    (((m.register_tool n h1 d1 q1).register_tool n h2 d2 q2).list_tools.count n = 1) ∧
    ((((m.register_tool n h1 d1 q1).register_tool n h2 d2 q2).get_tool_definitions.filter
        (fun td => td.function.name == n)).length =
      (m.get_tool_definitions.filter (fun td => td.function.name == n)).length + 2) := by
  refine ⟨lookup_dictSet_self _ _ _, ?_, ?_, ?_⟩
  · intro args
    simp only [ToolsManager.execute_tool, ToolsManager.register_tool,
      lookup_dictSet_self]
  · have hany : (dictSet m.tools n h1).any (fun p => p.1 == n) = true :=
      any_key_dictSet m.tools n h1
    simp only [ToolsManager.list_tools, ToolsManager.register_tool]
    rw [keys_dictSet, if_pos hany]
    exact count_keys_dictSet m.tools n h1 hnd
  · simp [ToolsManager.get_tool_definitions, ToolsManager.register_tool,
      List.filter_append]

/-- First handler for the C10 witness (overwritten). -/
def handlerOne : ToolHandler := fun _ => .exc "one"

/-- Second handler for the C10 witness (the survivor). -/
def handlerTwo : ToolHandler := fun _ => .ok "two"

/-- C10 witness: the double registration of `echo` on a fresh manager. -/
theorem c10_witness :
    (List.lookup "echo"
      (((⟨[], []⟩ : ToolsManager).register_tool "echo" handlerOne "da" "qa").register_tool
        "echo" handlerTwo "db" "qb").tools = some handlerTwo) ∧
    ((((⟨[], []⟩ : ToolsManager).register_tool "echo" handlerOne "da" "qa").register_tool
        "echo" handlerTwo "db" "qb").execute_tool ⟨"echo", []⟩ =
       match handlerTwo [] with
       | .ok v => .ok v
       | .exc e =>
           .error (.toolExecutionError ("Errore esecuzione " ++ "echo" ++ ": " ++ e))) ∧
    ((((⟨[], []⟩ : ToolsManager).register_tool "echo" handlerOne "da" "qa").register_tool
        "echo" handlerTwo "db" "qb").list_tools.count "echo" = 1) ∧
    ((((⟨[], []⟩ : ToolsManager).register_tool "echo" handlerOne "da" "qa").register_tool
        "echo" handlerTwo "db" "qb").get_tool_definitions.filter
          (fun td => td.function.name == "echo")).length =
      (((⟨[], []⟩ : ToolsManager).get_tool_definitions.filter
          (fun td => td.function.name == "echo")).length + 2) :=
  have h := c10_double_registration ⟨[], []⟩ "echo" handlerOne handlerTwo
    "da" "db" "qa" "qb" (by simp)
  ⟨h.1, h.2.1 [], h.2.2.1, h.2.2.2⟩

end LinkbayAI
